import Mathlib

/-!
Verification of the resource-correlation / log-aggregation core of
`openshift_mcp_server.py` (a cluster-introspection tool server).

Strings are modelled as `List Char`; Python's `s.lower()` is `lowerStr`,
Python's substring test `needle in hay` is `containsSub hay needle`, and
Python's `s.startswith(t)` is `startsWith s t`.  Cluster objects returned
by the gateway (pods, deployments, CSVs, nodes, events, builds) are
modelled as immutable snapshot records; fallible gateway calls are
modelled as `Except`-valued inputs.
-/

abbrev LChar := List Char

/-- Python `s.startswith(t)`: `startsWith s t` is true when `t` is an
initial segment of `s`. -/
def startsWith : LChar → LChar → Bool
  | _, [] => true
  | [], _ :: _ => false
  | c :: cs, d :: ds => c == d && startsWith cs ds

/-- Python `needle in hay` (substring containment). -/
def containsSub : LChar → LChar → Bool
  | [], needle => startsWith [] needle
  | c :: rest, needle => startsWith (c :: rest) needle || containsSub rest needle

/-- Python `s.lower()` (ASCII case folding, as used throughout the source). -/
def lowerStr (s : LChar) : LChar := s.map Char.toLower

-- String constants appearing literally in the source.
def kReplicaSet : LChar := "ReplicaSet".data
def kClusterServiceVersion : LChar := "ClusterServiceVersion".data
def sDash : LChar := "-".data
def sSlash : LChar := "/".data
def errOperatorPods : LChar := "Error getting operator pods: ".data

/-- Owner reference of a cluster object: `{kind, name}` (uid is never
consulted by the source). -/
structure OwnerRef where
  kind : LChar
  name : LChar
deriving DecidableEq

/-- Pod snapshot, with the fields `get_operator_pods` reads. -/
structure Pod where
  name : LChar
  ns : LChar
  ownerRefs : List OwnerRef
  phase : LChar
  containerReady : List Bool
  created : LChar
  node : LChar
deriving DecidableEq

/-- Deployment snapshot, with the fields `get_operator_pods` reads. -/
structure Deployment where
  name : LChar
  ownerRefs : List OwnerRef
deriving DecidableEq

/-- ClusterServiceVersion snapshot (only its name is read). -/
structure Csv where
  name : LChar
deriving DecidableEq

/-- The dictionary `get_operator_pods` appends per matched pod. -/
structure PodInfo where
  name : LChar
  ns : LChar
  status : LChar
  ready : Nat
  containers : Nat
  created : LChar
  node : LChar
deriving DecidableEq

/-- Builds the per-pod result dictionary of `get_operator_pods`. -/
def mkPodInfo (p : Pod) : PodInfo :=
  { name := p.name
    ns := p.ns
    status := p.phase
    ready := (p.containerReady.filter (fun b => b)).length
    containers := p.containerReady.length
    created := p.created
    node := p.node }

/-- `get_operator_pods` method 1, CSV selection: first CSV whose name
contains `operator_name` (case-sensitive substring). -/
def findTargetCsv (opName : LChar) (csvs : List Csv) : Option Csv :=
  csvs.find? (fun c => containsSub c.name opName)

/-- `get_operator_pods` method 1, deployment selection: deployments with an
owner reference of kind `ClusterServiceVersion` naming the target CSV
(appended once per matching owner reference, as in the source loop). -/
def operatorDeployments (csvName : LChar) (deps : List Deployment) : List Deployment :=
  deps.flatMap (fun d =>
    d.ownerRefs.filterMap (fun o =>
      if o.kind == kClusterServiceVersion && o.name == csvName then some d else none))

/-- `get_operator_pods` method 1, pod selection: a pod is appended once per
(owner reference, matched deployment) pair where the owner reference has
kind `ReplicaSet` and its name starts with `"<deployment-name>-"`. -/
def methodOnePods (deps : List Deployment) (pods : List Pod) : List Pod :=
  pods.flatMap (fun pod =>
    pod.ownerRefs.flatMap (fun o =>
      if o.kind == kReplicaSet then
        deps.filterMap (fun d =>
          if startsWith o.name (d.name ++ sDash) then some pod else none)
      else []))

/-- The full owner-chain strategy (CSV -> deployment -> replicaset -> pod):
empty when no CSV name contains the operator name. -/
def ownerChainPods (opName : LChar) (csvs : List Csv) (deps : List Deployment)
    (pods : List Pod) : List Pod :=
  match findTargetCsv opName csvs with
  | some csv => methodOnePods (operatorDeployments csv.name deps) pods
  | none => []

/-- `get_operator_pods` method 2: pods whose name contains the operator
name case-insensitively. -/
def nameFallback (opName : LChar) (pods : List Pod) : List PodInfo :=
  pods.filterMap (fun p =>
    if containsSub (lowerStr p.name) (lowerStr opName) then some (mkPodInfo p) else none)

/-- `get_operator_pods`, with the three gateway list calls modelled as
`Except`-valued inputs.  The whole body sits under a single
`try/except` in the source, so any gateway error is returned as the
string `"Error getting operator pods: <e>"`.  Deployments and pods are
only listed on the paths where the source lists them. -/
def get_operator_pods_gw (opName : LChar) (csvRes : Except LChar (List Csv))
    (depRes : Except LChar (List Deployment)) (podRes : Except LChar (List Pod)) :
    Except LChar (List PodInfo) :=
  match csvRes with
  | .error e => .error (errOperatorPods ++ e)
  | .ok csvs =>
    match findTargetCsv opName csvs with
    | some csv =>
      match depRes with
      | .error e => .error (errOperatorPods ++ e)
      | .ok deps =>
        match podRes with
        | .error e => .error (errOperatorPods ++ e)
        | .ok pods =>
          let m1 := methodOnePods (operatorDeployments csv.name deps) pods
          if m1.isEmpty then .ok (nameFallback opName pods)
          else .ok (m1.map mkPodInfo)
    | none =>
      match podRes with
      | .error e => .error (errOperatorPods ++ e)
      | .ok pods => .ok (nameFallback opName pods)

-- ## Multi-source search engine (`search_all_logs`)

def nlChar : Char := '\n'
def sAll : LChar := "all".data
def sPodT : LChar := "pod".data
def sEventT : LChar := "event".data
def sBuildT : LChar := "build".data
def podSearchErr : LChar := "Pod log search error: ".data
def eventSearchErr : LChar := "Event search error: ".data

/-- Python `"\n".join(lines)`. -/
def joinNl : List LChar → LChar
  | [] => []
  | l :: [] => l
  | l :: r :: rest => l ++ nlChar :: joinNl (r :: rest)

/-- Python `text.split('\n')`. -/
def splitNl : LChar → List LChar
  | [] => [[]]
  | c :: rest =>
    if c == nlChar then [] :: splitNl rest
    else
      match splitNl rest with
      | [] => [[c]]
      | h :: t => (c :: h) :: t

/-- The last `n` elements of a list (the gateway's `tail_lines=n`). -/
def takeLast (n : Nat) (l : List α) : List α := l.drop (l.length - n)

/-- Pod snapshot for log search: `logLines` is the pod's full log stream
as held by the gateway; `fetchFails` marks a pod whose log fetch raises. -/
structure PodL where
  name : LChar
  ns : LChar
  logLines : List LChar
  fetchFails : Bool
deriving DecidableEq

/-- Event snapshot with the fields `search_all_logs` reads. -/
structure KEvent where
  ns : LChar
  objName : LChar
  message : LChar
  reason : LChar
  etype : LChar
deriving DecidableEq

/-- Build snapshot: `logText` is the build log the gateway serves;
`fetchFails` marks a build whose `BuildLog` fetch raises. -/
structure KBuild where
  name : LChar
  ns : LChar
  logText : LChar
  fetchFails : Bool
deriving DecidableEq

/-- One entry of the `results` list built by `search_all_logs`. -/
inductive Hit where
  | podLog (source : LChar) (matchLines : List LChar)
  | event (source : LChar) (message : LChar) (reason : LChar) (etype : LChar)
  | buildLog (source : LChar) (matchLines : List LChar)
  | err (message : LChar)
deriving DecidableEq

/-- Whether a result entry is one of the `{"type": "error", ...}` records. -/
def isErrHit : Hit → Bool
  | .err _ => true
  | _ => false

/-- Gateway `read_namespaced_pod_log(..., tail_lines=n)`: the last `n`
lines of the pod's log, joined; or an error when the fetch raises. -/
def fetchLog (n : Nat) (p : PodL) : Except Unit LChar :=
  if p.fetchFails then .error () else .ok (joinNl (takeLast n p.logLines))

/-- Per-pod body of the pod-log loop of `search_all_logs`: a fetch error is
skipped (`except: continue`); otherwise a hit is produced when the query
occurs case-insensitively in the fetched text, carrying at most 5
matching lines in original order. -/
def podLogHitOf (query : LChar) (n : Nat) (p : PodL) : Option Hit :=
  match fetchLog n p with
  | .error _ => none
  | .ok logs =>
    if containsSub (lowerStr logs) (lowerStr query) then
      some (.podLog (p.ns ++ sSlash ++ p.name)
        (((splitNl logs).filter (fun l => containsSub (lowerStr l) (lowerStr query))).take 5))
    else none

/-- The pod-log source of `search_all_logs`: first 20 pods, each searched
independently. -/
def podLogHits (query : LChar) (n : Nat) (pods : List PodL) : List Hit :=
  (pods.take 20).filterMap (podLogHitOf query n)

/-- Per-event body of the event loop of `search_all_logs`. -/
def eventHitOf (query : LChar) (e : KEvent) : Option Hit :=
  if containsSub (lowerStr e.message) (lowerStr query) then
    some (.event (e.ns ++ sSlash ++ e.objName) e.message e.reason e.etype)
  else none

/-- The event source of `search_all_logs`: one hit per matching event. -/
def eventHits (query : LChar) (evs : List KEvent) : List Hit :=
  evs.filterMap (eventHitOf query)

/-- Per-build body of the build-log loop of `search_all_logs`: a fetch
error is skipped; otherwise a hit carries at most 3 matching lines. -/
def buildHitOf (query : LChar) (b : KBuild) : Option Hit :=
  if b.fetchFails then none
  else if containsSub (lowerStr b.logText) (lowerStr query) then
    some (.buildLog (b.ns ++ sSlash ++ b.name)
      (((splitNl b.logText).filter (fun l => containsSub (lowerStr l) (lowerStr query))).take 3))
  else none

/-- The build-log source of `search_all_logs`: first 10 builds. -/
def buildHits (query : LChar) (bs : List KBuild) : List Hit :=
  (bs.take 10).filterMap (buildHitOf query)

/-- `search_all_logs(query, project, resource_types, lines)`: the three
sources are queried independently and their hits concatenated in
source order.  A failing pod or event listing appends one error record;
the build source's outer handler is a bare `pass`. -/
def search_all_logs (query : LChar) (rtypes : LChar) (lines : Nat)
    (podsRes : Except Unit (List PodL)) (eventsRes : Except Unit (List KEvent))
    (buildsRes : Except Unit (List KBuild)) : List Hit :=
  (if rtypes == sAll || rtypes == sPodT then
    match podsRes with
    | .error _ => [.err podSearchErr]
    | .ok pods => podLogHits query lines pods
  else [])
  ++ (if rtypes == sAll || rtypes == sEventT then
    match eventsRes with
    | .error _ => [.err eventSearchErr]
    | .ok evs => eventHits query evs
  else [])
  ++ (if rtypes == sAll || rtypes == sBuildT then
    match buildsRes with
    | .error _ => []
    | .ok bs => buildHits query bs
  else [])

-- ## Capability classification (`get_gpu_nodes`, `get_gpu_workloads`,
-- `get_nvidia_operators`)

def sNvidiaCom : LChar := "nvidia.com".data
def sGpu : LChar := "gpu".data
def sNvidia : LChar := "nvidia".data
def sCuda : LChar := "cuda".data
def sMellanox : LChar := "mellanox".data
def sConnectx : LChar := "connectx".data

/-- The resource-key test written at both `get_gpu_nodes` and
`get_gpu_workloads`: `"nvidia.com" in resource or "gpu" in
resource.lower()` (the first test is case-sensitive). -/
def gpuResMatch (r : LChar) : Bool :=
  containsSub r sNvidiaCom || containsSub (lowerStr r) sGpu

/-- The label-key test of `get_gpu_nodes`: `"nvidia" in label.lower() or
"gpu" in label.lower()` (label values are never consulted). -/
def nodeLabelMatch (l : LChar) : Bool :=
  containsSub (lowerStr l) sNvidia || containsSub (lowerStr l) sGpu

/-- Node snapshot with the fields `get_gpu_nodes` reads. -/
structure ClusterNode where
  name : LChar
  labels : List (LChar × LChar)
  allocatable : List (LChar × LChar)
deriving DecidableEq

/-- The per-node record `get_gpu_nodes` builds. -/
structure GpuNodeInfo where
  name : LChar
  gpu_resources : List (LChar × LChar)
  nvidia_labels : List (LChar × LChar)
deriving DecidableEq

/-- The inclusion test of `get_gpu_nodes`: the node is kept when its
filtered `gpu_resources` or `nvidia_labels` mapping is non-empty. -/
def nodeGpuSelected (nd : ClusterNode) : Bool :=
  !(nd.allocatable.filter (fun kv => gpuResMatch kv.1)).isEmpty
    || !(nd.labels.filter (fun kv => nodeLabelMatch kv.1)).isEmpty

/-- `get_gpu_nodes`: keeps nodes with a GPU resource key or an
NVIDIA/GPU label key, reporting the filtered mappings. -/
def get_gpu_nodes (nodes : List ClusterNode) : List GpuNodeInfo :=
  nodes.filterMap (fun nd =>
    let gpuRes := nd.allocatable.filter (fun kv => gpuResMatch kv.1)
    let nvLabels := nd.labels.filter (fun kv => nodeLabelMatch kv.1)
    if gpuRes.isEmpty && nvLabels.isEmpty then none
    else some { name := nd.name, gpu_resources := gpuRes, nvidia_labels := nvLabels })

/-- The keyword list of `get_nvidia_operators`. -/
def nvidiaKeywords : List LChar := [sNvidia, sGpu, sCuda, sMellanox, sConnectx]

/-- The operator classification of `get_nvidia_operators`: any keyword as a
substring of the lower-cased name, package or CSV display name. -/
def nvidiaOpMatch (name pkg disp : LChar) : Bool :=
  nvidiaKeywords.any (fun kw =>
    containsSub (lowerStr name) kw || containsSub (lowerStr pkg) kw
      || containsSub (lowerStr disp) kw)

/-- `classify` as worded by the specification (refinement comparison
only): any of name, label keys/values, annotation keys/values, or
resource keys contains any taxonomy keyword, case-insensitively. -/
def classify_spec (name : LChar) (labels annots : List (LChar × LChar))
    (resourceKeys : List LChar) (tax : List LChar) : Bool :=
  tax.any (fun kw =>
    containsSub (lowerStr name) (lowerStr kw)
      || labels.any (fun kv =>
        containsSub (lowerStr kv.1) (lowerStr kw) || containsSub (lowerStr kv.2) (lowerStr kw))
      || annots.any (fun kv =>
        containsSub (lowerStr kv.1) (lowerStr kw) || containsSub (lowerStr kv.2) (lowerStr kw))
      || resourceKeys.any (fun r => containsSub (lowerStr r) (lowerStr kw)))

/-- The GPU taxonomy as worded by the specification. -/
def gpuTaxSpec : List LChar := [sNvidiaCom, sGpu, sCuda]

-- ## GPU workloads (`get_gpu_workloads`)

/-- Container snapshot: declared resource requests and limits
(`None` resources in the source behave as an empty mapping). -/
structure ContainerW where
  requests : List (LChar × LChar)
  limits : List (LChar × LChar)
deriving DecidableEq

/-- Pod snapshot with the fields `get_gpu_workloads` reads. -/
structure PodW where
  name : LChar
  ns : LChar
  phase : LChar
  node : LChar
  containers : List ContainerW
  created : LChar
deriving DecidableEq

/-- Python dict assignment `m[k] = v`: overwrite in place, else append. -/
def dinsert : List (LChar × LChar) → LChar → LChar → List (LChar × LChar)
  | [], k, v => [(k, v)]
  | kv :: rest, k, v => if kv.1 = k then (k, v) :: rest else kv :: dinsert rest k v

/-- The mutable state of the `get_gpu_workloads` per-pod loop:
`gpu_requests`, `gpu_limits` and the `has_gpu` flag. -/
structure GAcc where
  reqs : List (LChar × LChar)
  lims : List (LChar × LChar)
  has : Bool
deriving DecidableEq

/-- One iteration of the requests loop of `get_gpu_workloads`. -/
def stepReq (a : GAcc) (kv : LChar × LChar) : GAcc :=
  if gpuResMatch kv.1 then { reqs := dinsert a.reqs kv.1 kv.2, lims := a.lims, has := true }
  else a

/-- One iteration of the limits loop of `get_gpu_workloads`. -/
def stepLim (a : GAcc) (kv : LChar × LChar) : GAcc :=
  if gpuResMatch kv.1 then { reqs := a.reqs, lims := dinsert a.lims kv.1 kv.2, has := true }
  else a

/-- Per-container body of `get_gpu_workloads`: scan requests, then limits. -/
def scanContainer (a : GAcc) (c : ContainerW) : GAcc :=
  c.limits.foldl stepLim (c.requests.foldl stepReq a)

/-- All containers of a pod, starting from empty mappings. -/
def gpuScan (p : PodW) : GAcc :=
  p.containers.foldl scanContainer { reqs := [], lims := [], has := false }

/-- The per-pod record `get_gpu_workloads` appends. -/
structure GpuWorkload where
  name : LChar
  ns : LChar
  status : LChar
  node : LChar
  gpu_requests : List (LChar × LChar)
  gpu_limits : List (LChar × LChar)
  created : LChar
deriving DecidableEq

def gpuPodInfo (p : PodW) : GpuWorkload :=
  { name := p.name
    ns := p.ns
    status := p.phase
    node := p.node
    gpu_requests := (gpuScan p).reqs
    gpu_limits := (gpuScan p).lims
    created := p.created }

/-- `get_gpu_workloads`: keeps pods for which some container declares a
matching resource request or limit. -/
def get_gpu_workloads (pods : List PodW) : List GpuWorkload :=
  pods.filterMap (fun p => if (gpuScan p).has then some (gpuPodInfo p) else none)

-- ## Health summaries (`get_gpu_operator_health`, `get_bluefield_dpu_health`)

def sSucceeded : LChar := "Succeeded".data
def sRunning : LChar := "Running".data
def sHealthy : LChar := "healthy".data
def sDegraded : LChar := "degraded".data
def sGpuOperator : LChar := "gpu-operator".data
def sNetworkOperator : LChar := "network-operator".data
def kOperatorInstalled : LChar := "operator_installed".data
def kOperatorHealthy : LChar := "operator_healthy".data
def kTotalPods : LChar := "total_pods".data
def kRunningPods : LChar := "running_pods".data
def kGpuNodesCount : LChar := "gpu_nodes_count".data
def kRecentErrorsCount : LChar := "recent_errors_count".data
def kTimestamp : LChar := "timestamp".data
def kNetworkOperatorInstalled : LChar := "network_operator_installed".data
def kDpuNodesCount : LChar := "dpu_nodes_count".data
def kDpuWorkloadsCount : LChar := "dpu_workloads_count".data
def kHealthStatus : LChar := "health_status".data

/-- Summary values: the JSON scalars the two summary dictionaries hold. -/
inductive SVal where
  | b (x : Bool)
  | n (x : Nat)
  | s (x : LChar)
deriving DecidableEq

/-- Operator record as consumed by the health aggregators: the fields they
read from a `get_all_operators` entry (`csvPhase` is
`csv_info.phase` when present). -/
structure OpRec where
  name : LChar
  ns : LChar
  package : LChar
  displayName : LChar
  csvPhase : Option LChar
deriving DecidableEq

/-- `get_gpu_operator_health` step 1: first discovered operator whose name
contains `"gpu-operator"` (case-sensitive). -/
def findGpuOperator (ops : List OpRec) : Option OpRec :=
  ops.find? (fun o => containsSub o.name sGpuOperator)

/-- `get_bluefield_dpu_health` step 1: first discovered operator whose
name contains `"network-operator"` (case-sensitive). -/
def findNetworkOperator (ops : List OpRec) : Option OpRec :=
  ops.find? (fun o => containsSub o.name sNetworkOperator)

/-- The summary dictionary of `get_gpu_operator_health` (step 7), as an
insertion-ordered key/value list.  `opStatus` is the discovered
operator (`none` models the initial `{}`); `gpuNodes` and
`recentErrors` are opaque facet lists (only their lengths are read);
`ts` is the wall-clock timestamp string. -/
def gpu_health_summary (opStatus : Option OpRec) (podsStatus : List PodInfo)
    (gpuNodes : List α) (recentErrors : List β) (ts : LChar) : List (LChar × SVal) :=
  [ (kOperatorInstalled, SVal.b opStatus.isSome),
    (kOperatorHealthy, SVal.b (match opStatus with
      | some o => match o.csvPhase with
        | some ph => ph == sSucceeded
        | none => false
      | none => false)),
    (kTotalPods, SVal.n podsStatus.length),
    (kRunningPods, SVal.n (podsStatus.filter (fun p => p.status == sRunning)).length),
    (kGpuNodesCount, SVal.n gpuNodes.length),
    (kRecentErrorsCount, SVal.n recentErrors.length),
    (kTimestamp, SVal.s ts) ]

/-- The summary dictionary of `get_bluefield_dpu_health` (step 7):
`health_status` is `"healthy"` when the recent-errors facet is empty,
else `"degraded"`. -/
def dpu_health_summary (ops : List OpRec) (dpuNodes : List α)
    (dpuWorkloads : List β) (recentErrors : List γ) : List (LChar × SVal) :=
  [ (kNetworkOperatorInstalled, SVal.b (findNetworkOperator ops).isSome),
    (kDpuNodesCount, SVal.n dpuNodes.length),
    (kDpuWorkloadsCount, SVal.n dpuWorkloads.length),
    (kRecentErrorsCount, SVal.n recentErrors.length),
    (kHealthStatus, SVal.s (if recentErrors.isEmpty then sHealthy else sDegraded)) ]

-- ## OCM managed-cluster gateway (`OCMManager.make_request`,
-- `ocm_get_clusters`)

def sNA : LChar := "N/A".data

/-- A parsed OCM response body: `items` is present or absent. -/
structure OcmData where
  items : Option (List (Option LChar × Option LChar × Option LChar))
deriving DecidableEq

/-- One rendered cluster entry of `ocm_get_clusters` (name, id, state;
absent fields render as `"N/A"`). -/
structure ClusterInfo where
  name : LChar
  id : LChar
  state : LChar
deriving DecidableEq

/-- `OCMManager.make_request`: under the single `try`, a failed token
exchange or failed authenticated GET returns `None`; so does missing
credential configuration. -/
def make_request (avail : Bool) (tokenExchange : Except Unit LChar)
    (authGet : LChar → Except Unit OcmData) : Option OcmData :=
  if !avail then none
  else
    match tokenExchange with
    | .error _ => none
    | .ok tok =>
      match authGet tok with
      | .error _ => none
      | .ok d => some d

/-- The three observable outcomes of `ocm_get_clusters`: the availability
message, the "No clusters found or invalid response." message, or a
rendered cluster list. -/
inductive OcmReply where
  | notAvailable
  | noClusters
  | clusters (xs : List ClusterInfo)
deriving DecidableEq

/-- `ocm_get_clusters`: short-circuits when credentials are missing;
otherwise a `None` or items-less response yields the no-clusters
message, never an exception. -/
def ocm_get_clusters (avail : Bool) (tokenExchange : Except Unit LChar)
    (authGet : LChar → Except Unit OcmData) : OcmReply :=
  if !avail then .notAvailable
  else
    match make_request avail tokenExchange authGet with
    | none => .noClusters
    | some d =>
      match d.items with
      | none => .noClusters
      | some items => .clusters (items.map (fun c =>
          { name := c.1.getD sNA, id := c.2.1.getD sNA, state := c.2.2.getD sNA }))

-- ## Helper lemmas

lemma filterMap_if_eq_map_filter (l : List α) (p : α → Bool) (f : α → β) :
    l.filterMap (fun a => if p a then some (f a) else none) = (l.filter p).map f := by
  induction l with
  | nil => rfl
  | cons a t ih => cases h : p a <;> simp [List.filter_cons, h, ih]

lemma resolveFallbackEq (op : LChar) (csvs : List Csv) (deps : List Deployment)
    (pods : List Pod) (h : ownerChainPods op csvs deps pods = []) :
    get_operator_pods_gw op (.ok csvs) (.ok deps) (.ok pods) = .ok (nameFallback op pods) := by
  unfold ownerChainPods at h
  revert h
  cases hc : findTargetCsv op csvs with
  | none =>
    intro h
    simp [get_operator_pods_gw, hc]
  | some csv =>
    intro h
    simp only [] at h
    simp [get_operator_pods_gw, hc, h]

-- ## Claim C1

/-- Claim C1: when the owner-chain strategy yields zero pods,
`get_operator_pods` falls back to direct name-substring matching and
returns exactly the pods in scope whose name contains the operator name
case-insensitively. -/
theorem claim_C1_fallback_on_empty_owner_chain (op : LChar) (csvs : List Csv)
    (deps : List Deployment) (pods : List Pod)
    (h : ownerChainPods op csvs deps pods = []) :
    get_operator_pods_gw op (.ok csvs) (.ok deps) (.ok pods)
      = .ok ((pods.filter (fun p => containsSub (lowerStr p.name) (lowerStr op))).map mkPodInfo) := by
  rw [resolveFallbackEq op csvs deps pods h]
  unfold nameFallback
  rw [filterMap_if_eq_map_filter]

def opC1 : LChar := "alpha".data

def podC1 : Pod :=
  { name := "the-Alpha-pod".data, ns := "ns1".data, ownerRefs := [],
    phase := "Running".data, containerReady := [true], created := "t0".data,
    node := "n1".data }

/-- Claim C1 witness: with no CSVs the owner chain is empty and the call
returns exactly the case-insensitive name matches. -/
theorem claim_C1_witness :
    ownerChainPods opC1 [] [] [podC1] = []
      ∧ get_operator_pods_gw opC1 (.ok []) (.ok []) (.ok [podC1])
        = .ok (([podC1].filter (fun p => containsSub (lowerStr p.name) (lowerStr opC1))).map mkPodInfo) :=
  ⟨rfl, claim_C1_fallback_on_empty_owner_chain opC1 [] [] [podC1] rfl⟩

-- ## Claim C2

/-- Claim C2: in the owner-chain resolution, a pod is attributed to a
matched workload if and only if it carries an owner reference of kind
`ReplicaSet` whose name starts with the workload's name followed by a
hyphen. -/
theorem claim_C2_replicaset_name_attribution (deps : List Deployment) (pods : List Pod)
    (p : Pod) :
    p ∈ methodOnePods deps pods ↔
      p ∈ pods ∧ ∃ o ∈ p.ownerRefs, o.kind = kReplicaSet
        ∧ ∃ d ∈ deps, startsWith o.name (d.name ++ sDash) = true := by
  unfold methodOnePods
  constructor
  · intro h
    rcases List.mem_flatMap.mp h with ⟨pod, hpod, hin⟩
    rcases List.mem_flatMap.mp hin with ⟨o, ho, hmem⟩
    by_cases hk : (o.kind == kReplicaSet) = true
    · rw [if_pos hk] at hmem
      rcases List.mem_filterMap.mp hmem with ⟨d, hd, heq⟩
      by_cases hs : startsWith o.name (d.name ++ sDash) = true
      · rw [if_pos hs] at heq
        cases heq
        exact ⟨hpod, o, ho, beq_iff_eq.mp hk, d, hd, hs⟩
      · rw [if_neg hs] at heq
        cases heq
    · rw [if_neg hk] at hmem
      cases hmem
  · rintro ⟨hp, o, ho, hk, d, hd, hs⟩
    refine List.mem_flatMap.mpr ⟨p, hp, List.mem_flatMap.mpr ⟨o, ho, ?_⟩⟩
    rw [if_pos (beq_iff_eq.mpr hk)]
    exact List.mem_filterMap.mpr ⟨d, hd, by rw [if_pos hs]⟩

def depWeb : Deployment := { name := "web".data, ownerRefs := [] }

def podWebGood : Pod :=
  { name := "web-7f9c9-abcde".data, ns := "ns1".data,
    ownerRefs := [{ kind := kReplicaSet, name := "web-7f9c9".data }],
    phase := "Running".data, containerReady := [true], created := "t0".data,
    node := "n1".data }

def podWebhook : Pod :=
  { name := "webhook-abc-pod".data, ns := "ns1".data,
    ownerRefs := [{ kind := kReplicaSet, name := "webhook-abc".data }],
    phase := "Running".data, containerReady := [true], created := "t0".data,
    node := "n1".data }

/-- Claim C2 witness: for workload `web`, a pod owned by replicaset
`web-7f9c9` is attributed and a pod owned by replicaset `webhook-abc`
is not. -/
theorem claim_C2_witness :
    podWebGood ∈ methodOnePods [depWeb] [podWebGood, podWebhook]
      ∧ podWebhook ∉ methodOnePods [depWeb] [podWebGood, podWebhook] :=
  ⟨(claim_C2_replicaset_name_attribution [depWeb] [podWebGood, podWebhook] podWebGood).mpr
      (by decide),
   fun h => absurd
      ((claim_C2_replicaset_name_attribution [depWeb] [podWebGood, podWebhook] podWebhook).mp h)
      (by decide)⟩

-- ## Claim C3 (corrected)

def opC3 : LChar := "myop".data
def eBoom : LChar := "boom".data

def podC3 : Pod :=
  { name := "team-myop-pod-1".data, ns := "ns1".data, ownerRefs := [],
    phase := "Running".data, containerReady := [true], created := "t0".data,
    node := "n1".data }

/-- Claim C3 counterexample: a gateway error raised by the CSV lookup is
surfaced as `"Error getting operator pods: ..."` and the call never
reaches the name-heuristic fallback, although without the error the
fallback would have found a pod. -/
theorem claim_C3_counterexample :
    get_operator_pods_gw opC3 (.error eBoom) (.ok []) (.ok [podC3])
        = .error (errOperatorPods ++ eBoom)
      ∧ get_operator_pods_gw opC3 (.ok []) (.ok []) (.ok [podC3]) = .ok [mkPodInfo podC3] :=
  ⟨rfl, rfl⟩

/-- Claim C3 amended: a gateway error during the CSV lookup is not
swallowed: the whole `get_operator_pods` call aborts with the error
string and the name-heuristic fallback is not attempted. -/
theorem claim_C3_amended_csv_error_surfaced (op e : LChar)
    (depRes : Except LChar (List Deployment)) (podRes : Except LChar (List Pod)) :
    get_operator_pods_gw op (.error e) depRes podRes = .error (errOperatorPods ++ e) := rfl

-- ## Claim C8 (corrected)

def opC8 : LChar := "myop".data

def csvC8 : Csv := { name := "myop-csv".data }

def depC8 : Deployment :=
  { name := "myop-ctrl".data,
    ownerRefs := [{ kind := kClusterServiceVersion, name := "myop-csv".data }] }

def podC8 : Pod :=
  { name := "myop-ctrl-abc-xyz".data, ns := "ns1".data,
    ownerRefs := [{ kind := kReplicaSet, name := "myop-ctrl-abc".data }],
    phase := "Running".data, containerReady := [true], created := "t0".data,
    node := "n1".data }

/-- Claim C8 counterexample: one call resolves through the owner chain and
another through the name heuristic, yet the returned values are
identical — the result carries no `resolutionMethod` tag identifying
which strategy produced it. -/
theorem claim_C8_counterexample :
    ownerChainPods opC8 [csvC8] [depC8] [podC8] ≠ []
      ∧ ownerChainPods opC8 [] [] [podC8] = []
      ∧ get_operator_pods_gw opC8 (.ok [csvC8]) (.ok [depC8]) (.ok [podC8])
        = get_operator_pods_gw opC8 (.ok []) (.ok []) (.ok [podC8]) :=
  ⟨by decide, rfl, rfl⟩

/-- Claim C8 amended: `get_operator_pods` returns a bare list of pod
records with no resolution-method tag; when neither strategy finds a
pod it returns an empty list as a valid, non-error outcome rather than
raising. -/
theorem claim_C8_amended_empty_is_ok (op : LChar) (csvs : List Csv)
    (deps : List Deployment) (pods : List Pod)
    (h1 : ownerChainPods op csvs deps pods = [])
    (h2 : ∀ p ∈ pods, containsSub (lowerStr p.name) (lowerStr op) = false) :
    get_operator_pods_gw op (.ok csvs) (.ok deps) (.ok pods) = .ok [] := by
  rw [resolveFallbackEq op csvs deps pods h1]
  unfold nameFallback
  congr 1
  rw [List.filterMap_eq_nil_iff]
  intro p hp
  rw [h2 p hp]
  rfl

def opC8b : LChar := "zzz".data

/-- Claim C8 amended witness: nothing found by either strategy yields an
empty, non-error result. -/
theorem claim_C8_amended_witness :
    get_operator_pods_gw opC8b (.ok []) (.ok []) (.ok [podC8]) = .ok [] :=
  claim_C8_amended_empty_is_ok opC8b [] [] [podC8] rfl (by decide)

-- ## Claims C4 and C5 (search engine)

lemma filterMap_filter_of_none (l : List α) (ok : α → Bool) (f : α → Option β)
    (h : ∀ a, ok a = false → f a = none) :
    (l.filter ok).filterMap f = l.filterMap f := by
  induction l with
  | nil => rfl
  | cons a t ih =>
    cases hk : ok a with
    | true => simp [List.filter_cons, hk, List.filterMap_cons, ih]
    | false => simp [List.filter_cons, hk, List.filterMap_cons, h a hk, ih]

lemma podLogHitOf_fails (q : LChar) (n : Nat) (p : PodL) (h : p.fetchFails = true) :
    podLogHitOf q n p = none := by
  simp [podLogHitOf, fetchLog, h]

lemma buildHitOf_fails (q : LChar) (b : KBuild) (h : b.fetchFails = true) :
    buildHitOf q b = none := by
  simp [buildHitOf, h]

lemma podLogHitOf_shape (q : LChar) (n : Nat) (p : PodL) (h : Hit)
    (hs : podLogHitOf q n p = some h) : isErrHit h = false := by
  unfold podLogHitOf at hs
  cases hf : fetchLog n p with
  | error e => rw [hf] at hs; cases hs
  | ok logs =>
    rw [hf] at hs
    by_cases hc : containsSub (lowerStr logs) (lowerStr q) = true
    · simp only [hc, if_true] at hs
      cases hs
      rfl
    · simp [hc] at hs

lemma eventHitOf_shape (q : LChar) (e : KEvent) (h : Hit)
    (hs : eventHitOf q e = some h) : isErrHit h = false := by
  unfold eventHitOf at hs
  by_cases hc : containsSub (lowerStr e.message) (lowerStr q) = true
  · rw [if_pos hc] at hs
    cases hs
    rfl
  · rw [if_neg hc] at hs
    cases hs

lemma buildHitOf_shape (q : LChar) (b : KBuild) (h : Hit)
    (hs : buildHitOf q b = some h) : isErrHit h = false := by
  unfold buildHitOf at hs
  by_cases hf : b.fetchFails = true
  · rw [if_pos hf] at hs
    cases hs
  · rw [if_neg hf] at hs
    by_cases hc : containsSub (lowerStr b.logText) (lowerStr q) = true
    · rw [if_pos hc] at hs
      cases hs
      rfl
    · rw [if_neg hc] at hs
      cases hs

/-- Claim C4: with all three listings available, a per-item fetch failure
only skips that item — the result equals the hits of the non-failing
enumerated pods, all event hits, and the hits of the non-failing
enumerated builds, and contains no overall error record. -/
theorem claim_C4_per_item_skip (q : LChar) (n : Nat) (pods : List PodL)
    (evs : List KEvent) (bs : List KBuild) :
    search_all_logs q sAll n (.ok pods) (.ok evs) (.ok bs)
        = podLogHits q n ((pods.take 20).filter (fun p => !p.fetchFails))
          ++ eventHits q evs
          ++ buildHits q ((bs.take 10).filter (fun b => !b.fetchFails))
      ∧ ∀ h ∈ search_all_logs q sAll n (.ok pods) (.ok evs) (.ok bs), isErrHit h = false := by
  have hpods : podLogHits q n ((pods.take 20).filter (fun p => !p.fetchFails))
      = podLogHits q n pods := by
    unfold podLogHits
    rw [List.take_of_length_le
      (le_trans (List.length_filter_le _ _) (List.length_take_le 20 pods))]
    exact filterMap_filter_of_none _ _ _
      (fun p hp => podLogHitOf_fails q n p (by simpa using hp))
  have hbs : buildHits q ((bs.take 10).filter (fun b => !b.fetchFails))
      = buildHits q bs := by
    unfold buildHits
    rw [List.take_of_length_le
      (le_trans (List.length_filter_le _ _) (List.length_take_le 10 bs))]
    exact filterMap_filter_of_none _ _ _
      (fun b hb => buildHitOf_fails q b (by simpa using hb))
  have heq : search_all_logs q sAll n (.ok pods) (.ok evs) (.ok bs)
      = podLogHits q n pods ++ eventHits q evs ++ buildHits q bs := by
    unfold search_all_logs
    rfl
  refine ⟨by rw [heq, hpods, hbs], ?_⟩
  intro h hmem
  rw [heq] at hmem
  rcases List.mem_append.mp hmem with hmem' | hb
  · rcases List.mem_append.mp hmem' with hp | he
    · rcases List.mem_filterMap.mp hp with ⟨p, _, hsome⟩
      exact podLogHitOf_shape q n p h hsome
    · rcases List.mem_filterMap.mp he with ⟨e, _, hsome⟩
      exact eventHitOf_shape q e h hsome
  · rcases List.mem_filterMap.mp hb with ⟨b, _, hsome⟩
    exact buildHitOf_shape q b h hsome

def qC4 : LChar := "needle".data

def podS1 : PodL :=
  { name := "pod-one".data, ns := "ns1".data,
    logLines := ["a needle line".data, "other".data], fetchFails := false }

def podS2 : PodL :=
  { name := "pod-two".data, ns := "ns1".data,
    logLines := ["a needle line".data], fetchFails := true }

def podS3 : PodL :=
  { name := "pod-three".data, ns := "ns1".data,
    logLines := ["the needle again".data], fetchFails := false }

/-- Claim C4 witness: the log fetch for pod 2 of 3 errors; the result
holds exactly the hits derived from pods 1 and 3, with no error entry. -/
theorem claim_C4_witness :
    search_all_logs qC4 sAll 50 (.ok [podS1, podS2, podS3]) (.ok []) (.ok [])
        = podLogHits qC4 50 (([podS1, podS2, podS3].take 20).filter (fun p => !p.fetchFails))
          ++ eventHits qC4 [] ++ buildHits qC4 [] :=
  (claim_C4_per_item_skip qC4 50 [podS1, podS2, podS3] [] []).1

/-- Claim C5: a pod-log hit is decided only against the fetched tail of
the log — whenever the query does not occur (case-insensitively) in the
last `n` lines, the pod produces no hit, regardless of the rest of the
log. -/
theorem claim_C5_tail_window_only (q : LChar) (n : Nat) (p : PodL)
    (h : containsSub (lowerStr (joinNl (takeLast n p.logLines))) (lowerStr q) = false) :
    podLogHitOf q n p = none := by
  unfold podLogHitOf fetchLog
  by_cases hf : p.fetchFails = true
  · rw [if_pos hf]
  · rw [if_neg hf]
    simp [h]

def qC5 : LChar := "BOOM".data

/-- A 20-line log whose only occurrence of the query sits at position 15
from the end (line 6 of 20). -/
def logC5 : List LChar :=
  ["l01".data, "l02".data, "l03".data, "l04".data, "l05".data,
    "has boom here".data, "l07".data, "l08".data, "l09".data, "l10".data,
    "l11".data, "l12".data, "l13".data, "l14".data, "l15".data,
    "l16".data, "l17".data, "l18".data, "l19".data, "l20".data]

def podC5 : PodL :=
  { name := "pod-five".data, ns := "ns1".data, logLines := logC5, fetchFails := false }

/-- Claim C5 witness: with `lines = 10`, a query whose only occurrence is
15 lines from the end of a 20-line log is present in the full log but
yields no hit. -/
theorem claim_C5_witness :
    containsSub (lowerStr (joinNl logC5)) (lowerStr qC5) = true
      ∧ podLogHitOf qC5 10 podC5 = none :=
  ⟨by decide, claim_C5_tail_window_only qC5 10 podC5 (by decide)⟩

-- ## Helper lemmas for the `get_gpu_workloads` scan

lemma dinsert_key_iff (m : List (LChar × LChar)) (k v k0 : LChar) :
    (∃ v0, (k0, v0) ∈ dinsert m k v) ↔ (∃ v0, (k0, v0) ∈ m) ∨ k0 = k := by
  induction m with
  | nil => simp [dinsert]
  | cons kv rest ih =>
    obtain ⟨k1, v1⟩ := kv
    by_cases hk : k1 = k
    · show (∃ v0, (k0, v0) ∈ (if (k1, v1).1 = k then (k, v) :: rest else
        (k1, v1) :: dinsert rest k v)) ↔ _
      rw [if_pos hk]
      simp only [List.mem_cons]
      constructor
      · rintro ⟨v0, h0 | h0⟩
        · rw [Prod.mk.injEq] at h0
          exact Or.inr h0.1
        · exact Or.inl ⟨v0, Or.inr h0⟩
      · rintro (⟨v0, h0 | h0⟩ | rfl)
        · rw [Prod.mk.injEq] at h0
          exact ⟨v, Or.inl (by rw [h0.1, hk])⟩
        · exact ⟨v0, Or.inr h0⟩
        · exact ⟨v, Or.inl rfl⟩
    · show (∃ v0, (k0, v0) ∈ (if (k1, v1).1 = k then (k, v) :: rest else
        (k1, v1) :: dinsert rest k v)) ↔ _
      rw [if_neg hk]
      simp only [List.mem_cons]
      constructor
      · rintro ⟨v0, h0 | h0⟩
        · exact Or.inl ⟨v0, Or.inl h0⟩
        · rcases ih.mp ⟨v0, h0⟩ with ⟨v1', h1⟩ | h1
          · exact Or.inl ⟨v1', Or.inr h1⟩
          · exact Or.inr h1
      · rintro (⟨v0, h0 | h0⟩ | rfl)
        · exact ⟨v0, Or.inl h0⟩
        · rcases ih.mpr (Or.inl ⟨v0, h0⟩) with ⟨v1', h1⟩
          exact ⟨v1', Or.inr h1⟩
        · rcases ih.mpr (Or.inr rfl) with ⟨v1', h1⟩
          exact ⟨v1', Or.inr h1⟩

lemma dinsert_mem (m : List (LChar × LChar)) (k v k0 v0 : LChar)
    (h : (k0, v0) ∈ dinsert m k v) : (k0, v0) ∈ m ∨ (k0 = k ∧ v0 = v) := by
  induction m with
  | nil =>
    simp [dinsert] at h
    exact Or.inr h
  | cons kv rest ih =>
    obtain ⟨k1, v1⟩ := kv
    by_cases hk : k1 = k
    · rw [show dinsert ((k1, v1) :: rest) k v = (k, v) :: rest from by
        simp [dinsert, hk]] at h
      rcases List.mem_cons.mp h with h0 | h0
      · rw [Prod.mk.injEq] at h0
        exact Or.inr h0
      · exact Or.inl (List.mem_cons_of_mem _ h0)
    · rw [show dinsert ((k1, v1) :: rest) k v = (k1, v1) :: dinsert rest k v from by
        simp [dinsert, hk]] at h
      rcases List.mem_cons.mp h with h0 | h0
      · exact Or.inl (h0 ▸ List.mem_cons_self _ _)
      · rcases ih h0 with h1 | h1
        · exact Or.inl (List.mem_cons_of_mem _ h1)
        · exact Or.inr h1

lemma foldReq_lims (l : List (LChar × LChar)) (a : GAcc) :
    (l.foldl stepReq a).lims = a.lims := by
  induction l generalizing a with
  | nil => rfl
  | cons kv rest ih =>
    rw [List.foldl_cons, ih]
    unfold stepReq
    split <;> rfl

lemma foldLim_reqs (l : List (LChar × LChar)) (a : GAcc) :
    (l.foldl stepLim a).reqs = a.reqs := by
  induction l generalizing a with
  | nil => rfl
  | cons kv rest ih =>
    rw [List.foldl_cons, ih]
    unfold stepLim
    split <;> rfl

lemma foldReq_has (l : List (LChar × LChar)) (a : GAcc) :
    (l.foldl stepReq a).has
      = (a.has || l.any (fun kv => gpuResMatch kv.1)) := by
  induction l generalizing a with
  | nil => simp
  | cons kv rest ih =>
    rw [List.foldl_cons, ih]
    cases m : gpuResMatch kv.1 <;> simp [stepReq, m, Bool.or_assoc]

lemma foldLim_has (l : List (LChar × LChar)) (a : GAcc) :
    (l.foldl stepLim a).has
      = (a.has || l.any (fun kv => gpuResMatch kv.1)) := by
  induction l generalizing a with
  | nil => simp
  | cons kv rest ih =>
    rw [List.foldl_cons, ih]
    cases m : gpuResMatch kv.1 <;> simp [stepLim, m, Bool.or_assoc]

lemma foldReq_key (l : List (LChar × LChar)) (a : GAcc) (k0 : LChar) :
    (∃ v0, (k0, v0) ∈ (l.foldl stepReq a).reqs) ↔
      (∃ v0, (k0, v0) ∈ a.reqs) ∨ (gpuResMatch k0 = true ∧ ∃ v0, (k0, v0) ∈ l) := by
  induction l generalizing a with
  | nil => simp
  | cons kv rest ih =>
    obtain ⟨k1, v1⟩ := kv
    rw [List.foldl_cons, ih]
    cases m : gpuResMatch k1 with
    | true =>
      have hstep : (stepReq a (k1, v1)).reqs = dinsert a.reqs k1 v1 := by
        simp [stepReq, m]
      rw [hstep, dinsert_key_iff]
      simp only [List.mem_cons]
      constructor
      · rintro ((h | rfl) | ⟨hm, v0, h0⟩)
        · exact Or.inl h
        · exact Or.inr ⟨m, v1, Or.inl rfl⟩
        · exact Or.inr ⟨hm, v0, Or.inr h0⟩
      · rintro (h | ⟨hm, v0, h0 | h0⟩)
        · exact Or.inl (Or.inl h)
        · rw [Prod.mk.injEq] at h0
          exact Or.inl (Or.inr h0.1)
        · exact Or.inr ⟨hm, v0, h0⟩
    | false =>
      have hstep : stepReq a (k1, v1) = a := by
        simp [stepReq, m]
      rw [hstep]
      simp only [List.mem_cons]
      constructor
      · rintro (h | ⟨hm, v0, h0⟩)
        · exact Or.inl h
        · exact Or.inr ⟨hm, v0, Or.inr h0⟩
      · rintro (h | ⟨hm, v0, h0 | h0⟩)
        · exact Or.inl h
        · rw [Prod.mk.injEq] at h0
          rw [h0.1] at hm
          simp [m] at hm
        · exact Or.inr ⟨hm, v0, h0⟩

lemma foldLim_key (l : List (LChar × LChar)) (a : GAcc) (k0 : LChar) :
    (∃ v0, (k0, v0) ∈ (l.foldl stepLim a).lims) ↔
      (∃ v0, (k0, v0) ∈ a.lims) ∨ (gpuResMatch k0 = true ∧ ∃ v0, (k0, v0) ∈ l) := by
  induction l generalizing a with
  | nil => simp
  | cons kv rest ih =>
    obtain ⟨k1, v1⟩ := kv
    rw [List.foldl_cons, ih]
    cases m : gpuResMatch k1 with
    | true =>
      have hstep : (stepLim a (k1, v1)).lims = dinsert a.lims k1 v1 := by
        simp [stepLim, m]
      rw [hstep, dinsert_key_iff]
      simp only [List.mem_cons]
      constructor
      · rintro ((h | rfl) | ⟨hm, v0, h0⟩)
        · exact Or.inl h
        · exact Or.inr ⟨m, v1, Or.inl rfl⟩
        · exact Or.inr ⟨hm, v0, Or.inr h0⟩
      · rintro (h | ⟨hm, v0, h0 | h0⟩)
        · exact Or.inl (Or.inl h)
        · rw [Prod.mk.injEq] at h0
          exact Or.inl (Or.inr h0.1)
        · exact Or.inr ⟨hm, v0, h0⟩
    | false =>
      have hstep : stepLim a (k1, v1) = a := by
        simp [stepLim, m]
      rw [hstep]
      simp only [List.mem_cons]
      constructor
      · rintro (h | ⟨hm, v0, h0⟩)
        · exact Or.inl h
        · exact Or.inr ⟨hm, v0, Or.inr h0⟩
      · rintro (h | ⟨hm, v0, h0 | h0⟩)
        · exact Or.inl h
        · rw [Prod.mk.injEq] at h0
          rw [h0.1] at hm
          simp [m] at hm
        · exact Or.inr ⟨hm, v0, h0⟩

lemma foldReq_mem (l : List (LChar × LChar)) (a : GAcc) (k0 v0 : LChar)
    (h : (k0, v0) ∈ (l.foldl stepReq a).reqs) :
    (k0, v0) ∈ a.reqs ∨ ((k0, v0) ∈ l ∧ gpuResMatch k0 = true) := by
  induction l generalizing a with
  | nil => exact Or.inl h
  | cons kv rest ih =>
    obtain ⟨k1, v1⟩ := kv
    rw [List.foldl_cons] at h
    rcases ih (stepReq a (k1, v1)) h with h1 | h1
    · cases m : gpuResMatch k1 with
      | true =>
        rw [show (stepReq a (k1, v1)).reqs = dinsert a.reqs k1 v1 from by
          simp [stepReq, m]] at h1
        rcases dinsert_mem _ _ _ _ _ h1 with h2 | h2
        · exact Or.inl h2
        · refine Or.inr ⟨?_, ?_⟩
          · rw [h2.1, h2.2]
            exact List.mem_cons_self _ _
          · rw [h2.1]
            exact m
      | false =>
        rw [show stepReq a (k1, v1) = a from by simp [stepReq, m]] at h1
        exact Or.inl h1
    · exact Or.inr ⟨List.mem_cons_of_mem _ h1.1, h1.2⟩

lemma foldLim_mem (l : List (LChar × LChar)) (a : GAcc) (k0 v0 : LChar)
    (h : (k0, v0) ∈ (l.foldl stepLim a).lims) :
    (k0, v0) ∈ a.lims ∨ ((k0, v0) ∈ l ∧ gpuResMatch k0 = true) := by
  induction l generalizing a with
  | nil => exact Or.inl h
  | cons kv rest ih =>
    obtain ⟨k1, v1⟩ := kv
    rw [List.foldl_cons] at h
    rcases ih (stepLim a (k1, v1)) h with h1 | h1
    · cases m : gpuResMatch k1 with
      | true =>
        rw [show (stepLim a (k1, v1)).lims = dinsert a.lims k1 v1 from by
          simp [stepLim, m]] at h1
        rcases dinsert_mem _ _ _ _ _ h1 with h2 | h2
        · exact Or.inl h2
        · refine Or.inr ⟨?_, ?_⟩
          · rw [h2.1, h2.2]
            exact List.mem_cons_self _ _
          · rw [h2.1]
            exact m
      | false =>
        rw [show stepLim a (k1, v1) = a from by simp [stepLim, m]] at h1
        exact Or.inl h1
    · exact Or.inr ⟨List.mem_cons_of_mem _ h1.1, h1.2⟩

lemma scan_has (a : GAcc) (c : ContainerW) :
    (scanContainer a c).has
      = (a.has || c.requests.any (fun kv => gpuResMatch kv.1)
          || c.limits.any (fun kv => gpuResMatch kv.1)) := by
  unfold scanContainer
  rw [foldLim_has, foldReq_has]

lemma scan_reqs_key (a : GAcc) (c : ContainerW) (k0 : LChar) :
    (∃ v0, (k0, v0) ∈ (scanContainer a c).reqs) ↔
      (∃ v0, (k0, v0) ∈ a.reqs)
        ∨ (gpuResMatch k0 = true ∧ ∃ v0, (k0, v0) ∈ c.requests) := by
  unfold scanContainer
  rw [foldLim_reqs, foldReq_key]

lemma scan_lims_key (a : GAcc) (c : ContainerW) (k0 : LChar) :
    (∃ v0, (k0, v0) ∈ (scanContainer a c).lims) ↔
      (∃ v0, (k0, v0) ∈ a.lims)
        ∨ (gpuResMatch k0 = true ∧ ∃ v0, (k0, v0) ∈ c.limits) := by
  unfold scanContainer
  rw [foldLim_key, foldReq_lims]

lemma scan_reqs_mem (a : GAcc) (c : ContainerW) (k0 v0 : LChar)
    (h : (k0, v0) ∈ (scanContainer a c).reqs) :
    (k0, v0) ∈ a.reqs ∨ ((k0, v0) ∈ c.requests ∧ gpuResMatch k0 = true) := by
  unfold scanContainer at h
  rw [foldLim_reqs] at h
  exact foldReq_mem _ _ _ _ h

lemma scan_lims_mem (a : GAcc) (c : ContainerW) (k0 v0 : LChar)
    (h : (k0, v0) ∈ (scanContainer a c).lims) :
    (k0, v0) ∈ a.lims ∨ ((k0, v0) ∈ c.limits ∧ gpuResMatch k0 = true) := by
  unfold scanContainer at h
  rcases foldLim_mem _ _ _ _ h with h1 | h1
  · rw [foldReq_lims] at h1
    exact Or.inl h1
  · exact Or.inr h1

lemma foldScan_has (cs : List ContainerW) (a : GAcc) :
    (cs.foldl scanContainer a).has
      = (a.has || cs.any (fun c => c.requests.any (fun kv => gpuResMatch kv.1)
          || c.limits.any (fun kv => gpuResMatch kv.1))) := by
  induction cs generalizing a with
  | nil => simp
  | cons c rest ih =>
    rw [List.foldl_cons, ih, scan_has]
    simp [Bool.or_assoc]

lemma foldScan_reqs_key (cs : List ContainerW) (a : GAcc) (k0 : LChar) :
    (∃ v0, (k0, v0) ∈ (cs.foldl scanContainer a).reqs) ↔
      (∃ v0, (k0, v0) ∈ a.reqs)
        ∨ (gpuResMatch k0 = true ∧ ∃ c ∈ cs, ∃ v0, (k0, v0) ∈ c.requests) := by
  induction cs generalizing a with
  | nil => simp
  | cons c rest ih =>
    rw [List.foldl_cons, ih, scan_reqs_key]
    simp only [List.mem_cons, exists_eq_or_imp]
    tauto

lemma foldScan_lims_key (cs : List ContainerW) (a : GAcc) (k0 : LChar) :
    (∃ v0, (k0, v0) ∈ (cs.foldl scanContainer a).lims) ↔
      (∃ v0, (k0, v0) ∈ a.lims)
        ∨ (gpuResMatch k0 = true ∧ ∃ c ∈ cs, ∃ v0, (k0, v0) ∈ c.limits) := by
  induction cs generalizing a with
  | nil => simp
  | cons c rest ih =>
    rw [List.foldl_cons, ih, scan_lims_key]
    simp only [List.mem_cons, exists_eq_or_imp]
    tauto

lemma foldScan_reqs_mem (cs : List ContainerW) (a : GAcc) (k0 v0 : LChar)
    (h : (k0, v0) ∈ (cs.foldl scanContainer a).reqs) :
    (k0, v0) ∈ a.reqs
      ∨ (gpuResMatch k0 = true ∧ ∃ c ∈ cs, (k0, v0) ∈ c.requests) := by
  induction cs generalizing a with
  | nil => exact Or.inl h
  | cons c rest ih =>
    rw [List.foldl_cons] at h
    rcases ih (scanContainer a c) h with h1 | h1
    · rcases scan_reqs_mem _ _ _ _ h1 with h2 | h2
      · exact Or.inl h2
      · exact Or.inr ⟨h2.2, c, List.mem_cons_self _ _, h2.1⟩
    · rcases h1 with ⟨hm, c', hc', hmem⟩
      exact Or.inr ⟨hm, c', List.mem_cons_of_mem _ hc', hmem⟩

lemma foldScan_lims_mem (cs : List ContainerW) (a : GAcc) (k0 v0 : LChar)
    (h : (k0, v0) ∈ (cs.foldl scanContainer a).lims) :
    (k0, v0) ∈ a.lims
      ∨ (gpuResMatch k0 = true ∧ ∃ c ∈ cs, (k0, v0) ∈ c.limits) := by
  induction cs generalizing a with
  | nil => exact Or.inl h
  | cons c rest ih =>
    rw [List.foldl_cons] at h
    rcases ih (scanContainer a c) h with h1 | h1
    · rcases scan_lims_mem _ _ _ _ h1 with h2 | h2
      · exact Or.inl h2
      · exact Or.inr ⟨h2.2, c, List.mem_cons_self _ _, h2.1⟩
    · rcases h1 with ⟨hm, c', hc', hmem⟩
      exact Or.inr ⟨hm, c', List.mem_cons_of_mem _ hc', hmem⟩

lemma gpuScan_has_iff (p : PodW) :
    (gpuScan p).has = true ↔
      ∃ c ∈ p.containers, (∃ kv ∈ c.requests, gpuResMatch kv.1 = true)
        ∨ (∃ kv ∈ c.limits, gpuResMatch kv.1 = true) := by
  unfold gpuScan
  rw [foldScan_has]
  simp [List.any_eq_true]

lemma gpuScan_reqs_key (p : PodW) (k0 : LChar) :
    (∃ v0, (k0, v0) ∈ (gpuScan p).reqs) ↔
      gpuResMatch k0 = true ∧ ∃ c ∈ p.containers, ∃ v0, (k0, v0) ∈ c.requests := by
  unfold gpuScan
  rw [foldScan_reqs_key]
  simp

lemma gpuScan_lims_key (p : PodW) (k0 : LChar) :
    (∃ v0, (k0, v0) ∈ (gpuScan p).lims) ↔
      gpuResMatch k0 = true ∧ ∃ c ∈ p.containers, ∃ v0, (k0, v0) ∈ c.limits := by
  unfold gpuScan
  rw [foldScan_lims_key]
  simp

lemma gpuScan_reqs_mem (p : PodW) (k0 v0 : LChar)
    (h : (k0, v0) ∈ (gpuScan p).reqs) :
    gpuResMatch k0 = true ∧ ∃ c ∈ p.containers, (k0, v0) ∈ c.requests := by
  unfold gpuScan at h
  rcases foldScan_reqs_mem _ _ _ _ h with h1 | h1
  · cases h1
  · exact h1

lemma gpuScan_lims_mem (p : PodW) (k0 v0 : LChar)
    (h : (k0, v0) ∈ (gpuScan p).lims) :
    gpuResMatch k0 = true ∧ ∃ c ∈ p.containers, (k0, v0) ∈ c.limits := by
  unfold gpuScan at h
  rcases foldScan_lims_mem _ _ _ _ h with h1 | h1
  · cases h1
  · exact h1

lemma gpuScan_has_nonempty (p : PodW) (h : (gpuScan p).has = true) :
    (gpuScan p).reqs ≠ [] ∨ (gpuScan p).lims ≠ [] := by
  rcases (gpuScan_has_iff p).mp h with ⟨c, hc, ⟨kv, hkv, hm⟩ | ⟨kv, hkv, hm⟩⟩
  · left
    rcases (gpuScan_reqs_key p kv.1).mpr ⟨hm, c, hc, kv.2, by simpa using hkv⟩ with ⟨v0, hv0⟩
    exact List.ne_nil_of_mem hv0
  · right
    rcases (gpuScan_lims_key p kv.1).mpr ⟨hm, c, hc, kv.2, by simpa using hkv⟩ with ⟨v0, hv0⟩
    exact List.ne_nil_of_mem hv0

-- ## Claim C6 (corrected)

lemma nodeSel_iff (nd : ClusterNode) :
    nodeGpuSelected nd = true ↔
      (∃ kv ∈ nd.allocatable, gpuResMatch kv.1 = true)
        ∨ (∃ kv ∈ nd.labels, nodeLabelMatch kv.1 = true) := by
  unfold nodeGpuSelected
  simp [List.isEmpty_iff, List.filter_eq_nil_iff]

def nodeC6 : ClusterNode :=
  { name := "node-a".data, labels := [("vendor".data, "gpu-enabled".data)],
    allocatable := [] }

/-- Claim C6 counterexample: a node whose label value (but no label key,
resource key, or name) contains a GPU taxonomy keyword matches the
specification's classification rule, yet `get_gpu_nodes` excludes it —
the call sites do not apply the claimed uniform predicate. -/
theorem claim_C6_counterexample :
    classify_spec nodeC6.name nodeC6.labels [] [] gpuTaxSpec = true
      ∧ get_gpu_nodes [nodeC6] = [] :=
  ⟨by decide, rfl⟩

/-- Claim C6 amended: each call site applies its own hand-written
predicate — `get_gpu_nodes` consults allocatable resource keys
(`"nvidia.com"` case-sensitive or `"gpu"` case-insensitive) and label
keys (`"nvidia"`/`"gpu"` case-insensitive), ignoring label values,
annotation entries and the node name; `get_gpu_workloads` consults only
container resource request/limit keys; `get_nvidia_operators` consults
name, package and CSV display name against its five keywords. -/
theorem claim_C6_amended_per_site_predicates (nd : ClusterNode) (p : PodW)
    (nm pk dp : LChar) :
    (nodeGpuSelected nd = true ↔
        (∃ kv ∈ nd.allocatable, gpuResMatch kv.1 = true)
          ∨ (∃ kv ∈ nd.labels, nodeLabelMatch kv.1 = true))
      ∧ ((gpuScan p).has = true ↔
        ∃ c ∈ p.containers, (∃ kv ∈ c.requests, gpuResMatch kv.1 = true)
          ∨ (∃ kv ∈ c.limits, gpuResMatch kv.1 = true))
      ∧ (nvidiaOpMatch nm pk dp = true ↔
        ∃ kw ∈ nvidiaKeywords, containsSub (lowerStr nm) kw = true
          ∨ containsSub (lowerStr pk) kw = true ∨ containsSub (lowerStr dp) kw = true) :=
  ⟨nodeSel_iff nd, gpuScan_has_iff p, by simp [nvidiaOpMatch, List.any_eq_true, or_assoc]⟩

def kvC6 : LChar × LChar := ("nvidia.com/gpu".data, "2".data)

def nodeC6w : ClusterNode :=
  { name := "node-b".data, labels := [], allocatable := [kvC6] }

def podC6w : PodW :=
  { name := "p".data, ns := "ns1".data, phase := "Running".data, node := "n1".data,
    containers := [], created := "t0".data }

/-- Claim C6 amended witness: a node selected through its resource key. -/
theorem claim_C6_amended_witness : nodeGpuSelected nodeC6w = true :=
  (claim_C6_amended_per_site_predicates nodeC6w podC6w [] [] []).1.mpr
    (Or.inl ⟨kvC6, by decide, by decide⟩)

-- ## Claim C7 (corrected)

/-- Claim C7 counterexample: the GPU operator health summary carries no
`health_status` key at all, while the BlueField DPU summary does — the
claim's "every health-check call" fails on `get_gpu_operator_health`. -/
theorem claim_C7_counterexample :
    List.lookup kHealthStatus
        (gpu_health_summary none [] ([] : List Nat) ([] : List Nat) []) = none
      ∧ List.lookup kHealthStatus
        (dpu_health_summary [] ([] : List Nat) ([] : List Nat) ([] : List Nat))
        = some (SVal.s sHealthy) :=
  ⟨rfl, rfl⟩

/-- Claim C7 amended: only the BlueField DPU health summary contains a
`health_status` label — `"degraded"` when its recent-errors facet is
non-empty, else `"healthy"` — still computed with zero discovered
operator identities, in which case the installed flag is `false`; the
GPU operator health summary contains no `health_status` label. -/
theorem claim_C7_amended_health_status (ops : List OpRec) (dn : List α) (dw : List β)
    (errs : List γ) (opSt : Option OpRec) (ps : List PodInfo) (gn : List δ)
    (re : List ε) (ts : LChar) :
    List.lookup kHealthStatus (dpu_health_summary ops dn dw errs)
        = some (SVal.s (if errs.isEmpty then sHealthy else sDegraded))
      ∧ (findNetworkOperator ops = none →
        List.lookup kNetworkOperatorInstalled (dpu_health_summary ops dn dw errs)
          = some (SVal.b false))
      ∧ (opSt = none →
        List.lookup kOperatorInstalled (gpu_health_summary opSt ps gn re ts)
          = some (SVal.b false))
      ∧ List.lookup kHealthStatus (gpu_health_summary opSt ps gn re ts) = none := by
  refine ⟨rfl, ?_, ?_, rfl⟩
  · intro h
    have hbase : List.lookup kNetworkOperatorInstalled (dpu_health_summary ops dn dw errs)
        = some (SVal.b (findNetworkOperator ops).isSome) := rfl
    rw [hbase, h]
    rfl
  · intro h
    subst h
    rfl

/-- Claim C7 amended witness: with no discovered operators and a
non-empty error facet, the DPU summary reports `degraded` and
`installed = false`; the GPU summary reports `installed = false`. -/
theorem claim_C7_amended_witness :
    List.lookup kHealthStatus
        (dpu_health_summary [] ([] : List Nat) ([] : List Nat) ([0] : List Nat))
        = some (SVal.s (if ([0] : List Nat).isEmpty then sHealthy else sDegraded))
      ∧ List.lookup kNetworkOperatorInstalled
        (dpu_health_summary [] ([] : List Nat) ([] : List Nat) ([0] : List Nat))
        = some (SVal.b false)
      ∧ List.lookup kOperatorInstalled
        (gpu_health_summary none [] ([] : List Nat) ([] : List Nat) [])
        = some (SVal.b false) :=
  have h := claim_C7_amended_health_status [] ([] : List Nat) ([] : List Nat)
    ([0] : List Nat) none [] ([] : List Nat) ([] : List Nat) []
  ⟨h.1, h.2.1 rfl, h.2.2.1 rfl⟩

-- ## Claim C9

/-- Claim C9: a failure at the token-exchange step or at the authenticated
GET makes `make_request` return `None`, and `ocm_get_clusters` then
reports "No clusters found or invalid response." — never an uncaught
exception. -/
theorem claim_C9_ocm_failures_unavailable (tok : Except Unit LChar)
    (g : LChar → Except Unit OcmData)
    (h : tok = .error () ∨ ∀ t, g t = .error ()) :
    make_request true tok g = none ∧ ocm_get_clusters true tok g = .noClusters := by
  have hmr : make_request true tok g = none := by
    rcases h with h | h
    · rw [h]
      rfl
    · unfold make_request
      cases tok with
      | error e => rfl
      | ok t => simp [h t]
  refine ⟨hmr, ?_⟩
  simp [ocm_get_clusters, hmr]

def gC9 : LChar → Except Unit OcmData := fun _ => Except.ok { items := some [] }

/-- Claim C9 witness: a failed token exchange yields the empty outcome. -/
theorem claim_C9_witness :
    make_request true (.error ()) gC9 = none
      ∧ ocm_get_clusters true (.error ()) gC9 = .noClusters :=
  claim_C9_ocm_failures_unavailable (.error ()) gC9 (Or.inl rfl)

-- ## Claim C10

/-- Claim C10: a pod appears in `get_gpu_workloads` exactly when some
container declares a request or limit whose key contains `"nvidia.com"`
or contains `"gpu"` case-insensitively; every returned entry then has a
non-empty `gpu_requests` or `gpu_limits` mapping, and those mappings
hold exactly the matching resource keys, each with a quantity declared
by one of the pod's containers. -/
theorem claim_C10_gpu_workload_selection (pods : List PodW) (g : GpuWorkload)
    (p : PodW) (k v : LChar) :
    (g ∈ get_gpu_workloads pods ↔ ∃ q ∈ pods, (gpuScan q).has = true ∧ g = gpuPodInfo q)
      ∧ ((gpuScan p).has = true ↔ ∃ c ∈ p.containers,
          (∃ kv ∈ c.requests, gpuResMatch kv.1 = true)
            ∨ (∃ kv ∈ c.limits, gpuResMatch kv.1 = true))
      ∧ ((gpuScan p).has = true →
          (gpuPodInfo p).gpu_requests ≠ [] ∨ (gpuPodInfo p).gpu_limits ≠ [])
      ∧ ((∃ v0, (k, v0) ∈ (gpuPodInfo p).gpu_requests) ↔
          gpuResMatch k = true ∧ ∃ c ∈ p.containers, ∃ v0, (k, v0) ∈ c.requests)
      ∧ ((∃ v0, (k, v0) ∈ (gpuPodInfo p).gpu_limits) ↔
          gpuResMatch k = true ∧ ∃ c ∈ p.containers, ∃ v0, (k, v0) ∈ c.limits)
      ∧ ((k, v) ∈ (gpuPodInfo p).gpu_requests →
          gpuResMatch k = true ∧ ∃ c ∈ p.containers, (k, v) ∈ c.requests)
      ∧ ((k, v) ∈ (gpuPodInfo p).gpu_limits →
          gpuResMatch k = true ∧ ∃ c ∈ p.containers, (k, v) ∈ c.limits) := by
  have hreq : (gpuPodInfo p).gpu_requests = (gpuScan p).reqs := rfl
  have hlim : (gpuPodInfo p).gpu_limits = (gpuScan p).lims := rfl
  refine ⟨?_, gpuScan_has_iff p, ?_, ?_, ?_, ?_, ?_⟩
  · constructor
    · intro hg
      rcases List.mem_filterMap.mp hg with ⟨q, hq, hsome⟩
      by_cases hh : (gpuScan q).has = true
      · rw [if_pos hh] at hsome
        cases hsome
        exact ⟨q, hq, hh, rfl⟩
      · rw [if_neg hh] at hsome
        cases hsome
    · rintro ⟨q, hq, hh, rfl⟩
      exact List.mem_filterMap.mpr ⟨q, hq, by rw [if_pos hh]⟩
  · intro hh
    rw [hreq, hlim]
    exact gpuScan_has_nonempty p hh
  · rw [hreq]
    exact gpuScan_reqs_key p k
  · rw [hlim]
    exact gpuScan_lims_key p k
  · rw [hreq]
    exact gpuScan_reqs_mem p k v
  · rw [hlim]
    exact gpuScan_lims_mem p k v

def podC10 : PodW :=
  { name := "train-job".data, ns := "ml".data, phase := "Running".data,
    node := "n1".data,
    containers := [{ requests := [("nvidia.com/gpu".data, "1".data)], limits := [] }],
    created := "t0".data }

/-- Claim C10 witness: a pod with one matching GPU request is returned. -/
theorem claim_C10_witness : gpuPodInfo podC10 ∈ get_gpu_workloads [podC10] :=
  (claim_C10_gpu_workload_selection [podC10] (gpuPodInfo podC10) podC10 [] []).1.mpr
    ⟨podC10, by decide, by decide, rfl⟩
